import Mathlib

/-
  Verification development for the conversation-history normalization and
  turn-exchange core of a Google-Workspace chat relay backend (src/app.py).

  The client-supplied history is loosely-typed JSON; we embed JSON values as
  the inductive `JVal` and model the Python dict/string operations the code
  performs on them (`in`, subscript, `.get`, iteration, truthiness) as total
  Lean functions into `Except String`, where `.error` marks a raised Python
  exception (TypeError / KeyError / AttributeError).
-/

/-- A JSON-like dynamic value, as delivered by Flask request parsing. -/
inductive JVal where
  | null
  | bool (b : Bool)
  | num (n : Int)
  | str (s : String)
  | arr (xs : List JVal)
  | obj (kvs : List (String × JVal))

/-- Python truthiness of a JSON value (`if x:`). -/
def jTruthy (v : JVal) : Bool :=
  match v with
  | .null => false
  | .bool b => b
  | .num n => n != 0
  | .str s => !s.isEmpty
  | .arr xs => !xs.isEmpty
  | .obj kvs => !kvs.isEmpty

/-- Boolean prefix test on character lists (for the Python substring test). -/
def charsHavePre : List Char → List Char → Bool
  | [], _ => true
  | _ :: _, [] => false
  | a :: as, b :: bs => a == b && charsHavePre as bs

/-- Boolean infix test on character lists (for the Python substring test). -/
def charsHaveInf (needle : List Char) : List Char → Bool
  | [] => needle.isEmpty
  | b :: bs => charsHavePre needle (b :: bs) || charsHaveInf needle bs

/-- Python `k in v`: key membership for dicts, substring test for strings,
element membership for lists; raises TypeError otherwise. -/
def jContains (v : JVal) (k : String) : Except String Bool :=
  match v with
  | .obj kvs => .ok (kvs.any (fun p => p.1 == k))
  | .str s => .ok (charsHaveInf k.data s.data)
  | .arr xs => .ok (xs.any (fun x =>
      match x with
      | .str s => s == k
      | _ => false))
  | _ => .error "TypeError: argument of type is not iterable"

/-- Python `v[k]` for a string key: dict lookup (KeyError when absent); a
string or list raises TypeError on a string subscript. -/
def jGetItem (v : JVal) (k : String) : Except String JVal :=
  match v with
  | .obj kvs =>
    match kvs.lookup k with
    | some x => .ok x
    | none => .error ("KeyError: " ++ k)
  | .str _ => .error "TypeError: string indices must be integers"
  | _ => .error "TypeError: object is not subscriptable"

/-- Python `v.get(k, dflt)`: defined only on dicts, AttributeError otherwise. -/
def jGet (v : JVal) (k : String) (dflt : JVal) : Except String JVal :=
  match v with
  | .obj kvs => .ok ((kvs.lookup k).getD dflt)
  | _ => .error "AttributeError: object has no attribute get"

/-- Python `for x in v`: lists yield elements, strings yield one-character
strings, dicts yield their keys; other values raise TypeError. -/
def jIter (v : JVal) : Except String (List JVal) :=
  match v with
  | .arr xs => .ok xs
  | .str s => .ok (s.data.map (fun c => .str (String.mk [c])))
  | .obj kvs => .ok (kvs.map (fun p => .str p.1))
  | _ => .error "TypeError: object is not iterable"

/-- The per-part body of `sanitize_history_for_gemini` (src/app.py:83-93):
build `new_part` from the recognized keys. `text` is one independent `if`;
`functionCall`/`function_call` form one if/elif pair, and
`functionResponse`/`function_response` another, so distinct payload kinds
are kept independently while the two casings of one kind are exclusive. -/
def sanitizePart (part : JVal) : Except String (List (String × JVal)) := do
  let hasText ← jContains part "text"
  let np1 ←
    if hasText then
      (fun v => [("text", v)]) <$> jGetItem part "text"
    else pure []
  let hasFC ← jContains part "functionCall"
  let np2 ←
    if hasFC then
      (fun v => np1 ++ [("function_call", v)]) <$> jGetItem part "functionCall"
    else do
      let hasFC2 ← jContains part "function_call"
      if hasFC2 then
        (fun v => np1 ++ [("function_call", v)]) <$> jGetItem part "function_call"
      else pure np1
  let hasFR ← jContains part "functionResponse"
  let np3 ←
    if hasFR then
      (fun v => np2 ++ [("function_response", v)]) <$> jGetItem part "functionResponse"
    else do
      let hasFR2 ← jContains part "function_response"
      if hasFR2 then
        (fun v => np2 ++ [("function_response", v)]) <$> jGetItem part "function_response"
      else pure np2
  pure np3

/-- The inner part loop of `sanitize_history_for_gemini` (src/app.py:82-95):
a `new_part` that stayed empty is not appended. -/
def sanitizeParts : List JVal → Except String (List (List (String × JVal)))
  | [] => .ok []
  | p :: rest => do
    let np ← sanitizePart p
    let tail ← sanitizeParts rest
    pure (if np.isEmpty then tail else np :: tail)

/-- A normalized turn as produced by `sanitize_history_for_gemini`:
the record built from `item.get("role", "user")` and the filtered parts.
`role` keeps whatever JSON value the client sent (defaulted to `"user"`),
and each part is the key/value record built by `sanitizePart`. -/
structure STurn where
  role : JVal
  parts : List (List (String × JVal))

/-- One iteration of the outer loop of `sanitize_history_for_gemini`
(src/app.py:80-97): a turn whose filtered part list is empty yields `none`
and is dropped from the output. -/
def sanitizeItem (item : JVal) : Except String (Option STurn) := do
  let partsVal ← jGet item "parts" (.arr [])
  let partList ← jIter partsVal
  let newParts ← sanitizeParts partList
  if newParts.isEmpty then
    pure none
  else do
    let role ← jGet item "role" (.str "user")
    pure (some ⟨role, newParts⟩)

/-- Model of `sanitize_history_for_gemini` (src/app.py:78-98): normalize a raw
transcript, dropping empty parts and turns that end up with zero parts. -/
def sanitize_history_for_gemini : List JVal → Except String (List STurn)
  | [] => .ok []
  | item :: rest => do
    let r ← sanitizeItem item
    let tail ← sanitize_history_for_gemini rest
    match r with
    | some t => pure (t :: tail)
    | none => pure tail

/-
  Provider-reply side. The SDK reply is a dynamic attribute-style object;
  absent attributes (read with `getattr(x, a, default)`) are `Option` fields.
  Materializing the argument container of a function call (`dict(...)` in
  `part_to_dict`) is the operation that can throw while decoding a part, so
  it is embedded as an `Except`: `.error` is a raised exception, which the
  code catches.
-/

/-- A function-call payload on a reply part: `name`, and the result of
materializing its argument container key-by-key (`dict(part.function_call.args)`),
which may raise. -/
structure FunctionCallObj where
  name : String
  argsConv : Except String (List (String × JVal))

/-- A Gemini content part as accessed by `part_to_dict`:
`getattr(part, "text", None)` and `getattr(part, "function_call", None)`. -/
structure GPart where
  text : Option String
  function_call : Option FunctionCallObj

/-- Python truthiness of `getattr(part, "text", None)`:
absent or the empty string is falsy. -/
def textTruthy : Option String → Bool
  | some s => !s.isEmpty
  | none => false

/-- Model of `part_to_dict` (src/app.py:100-114): safe conversion of a reply part to a
transport dict; an exception inside (argument materialization) is caught and
becomes an error record; a part with no truthy text and no function call
becomes the empty record. -/
def part_to_dict (p : GPart) : JVal :=
  if textTruthy p.text then .obj [("text", .str (p.text.getD ""))]
  else
    match p.function_call with
    | some fc =>
      match fc.argsConv with
      | .ok args =>
        .obj [("functionCall", .obj [("name", .str fc.name), ("args", .obj args)])]
      | .error e => .obj [("error", .str ("part_to_dict_failed: " ++ e))]
    | none => .obj []

/-- A turn of the provider-side chat history as accessed by `history_to_dict`:
`getattr(c, "role", "model")` and `getattr(c, "parts", []) or []`. -/
structure GTurn where
  role : Option String
  parts : Option (List GPart)

/-- Model of `history_to_dict` (src/app.py:116-123): serialize the provider chat
history to transport turn records, converting every part with `part_to_dict`. -/
def history_to_dict (h : List GTurn) : List JVal :=
  h.map (fun c =>
    .obj [("role", .str (c.role.getD "model")),
          ("parts", .arr ((c.parts.getD []).map part_to_dict))])

/-- Model of `extract_user_text_from_item` (src/app.py:125-131), applied to a
normalized turn: the `text` value of the first part, defaulting to `""`. -/
def extract_user_text_from_item (item : STurn) : JVal :=
  match item.parts with
  | [] => .str ""
  | first :: _ => (first.lookup "text").getD (.str "")

/-- A reply content object: `getattr(content, "parts", None)` and
`getattr(content, "text", "")`. -/
structure GContent where
  parts : Option (List GPart)
  text : Option String

/-- A reply candidate: `getattr(candidates[0], "content", None)`. -/
structure Candidate where
  content : Option GContent

/-- A raw provider reply: `getattr(response, "candidates", None)`. -/
structure Reply where
  candidates : Option (List Candidate)

/-- Python truthiness of the candidates attribute: `None` and `[]` are falsy. -/
def candidatesTruthy : Option (List Candidate) → Bool
  | none => false
  | some l => !l.isEmpty

/-- Model of `safe_first_part_from_response` (src/app.py:133-149): safely return the
first part dict from a reply, even if empty; total over every reply shape. -/
def safe_first_part_from_response (r : Reply) : JVal :=
  match r.candidates with
  | none => .obj [("text", .str "")]
  | some cands =>
    match cands with
    | [] => .obj [("text", .str "")]
    | c :: _ =>
      match c.content with
      | none => .obj [("text", .str "")]
      | some content =>
        match content.parts.getD [] with
        | [] => .obj [("text", .str (content.text.getD ""))]
        | p :: _ => part_to_dict p

/-
  Prompt building (src/app.py:176-198) with clock injection: the server clock
  and the pytz zone database are passed in as a `Clock`, so the rendered
  instruction is a deterministic function of (timezone string, clock), as the
  design requires for reproducible testing. `tzNow tz = none` models
  `pytz.timezone(tz)` raising `UnknownTimeZoneError`.
-/

/-- A local date/time as read back through `strftime`: numeric fields plus
the rendered weekday name (`%A`). -/
structure DateTimeRec where
  year : Nat
  month : Nat
  day : Nat
  hour : Nat
  minute : Nat
  second : Nat
  weekday : String

/-- Injected clock: `localNow` is `datetime.now()`, and `tzNow tz` is
`datetime.now(pytz.timezone(tz))`, `none` when the zone does not resolve. -/
structure Clock where
  localNow : DateTimeRec
  tzNow : String → Option DateTimeRec

/-- The timezone try/except of the handler (src/app.py:177-184): resolve the
zone and take the current time there; on failure fall back silently to the
server local time. The Bool is `tz_ok`. -/
def resolve_now (clock : Clock) (tz : String) : DateTimeRec × Bool :=
  match clock.tzNow tz with
  | some dt => (dt, true)
  | none => (clock.localNow, false)

/-- Two-digit zero padding, as in `strftime` `%m`/`%d`/`%H`/`%M`/`%S`. -/
def pad2 (n : Nat) : String := if n < 10 then "0" ++ toString n else toString n

/-- Four-digit zero padding, as in `strftime` `%Y`. -/
def pad4 (n : Nat) : String :=
  if n < 10 then "000" ++ toString n
  else if n < 100 then "00" ++ toString n
  else if n < 1000 then "0" ++ toString n
  else toString n

/-- Rendering of `now.strftime("%Y-%m-%d")`. -/
def fmtDate (d : DateTimeRec) : String :=
  pad4 d.year ++ "-" ++ pad2 d.month ++ "-" ++ pad2 d.day

/-- Rendering of `now.strftime("%H:%M:%S")`. -/
def fmtTime (d : DateTimeRec) : String :=
  pad2 d.hour ++ ":" ++ pad2 d.minute ++ ":" ++ pad2 d.second

/-- Template text of the system prompt before the first timezone occurrence. -/
def sysPromptPre : String :=
  "\n        You are a helpful assistant connected to Google Workspace.\n        \n        CRITICAL CONTEXT:\n        - User\x27s Timezone: "

/-- Template text between the timezone and the current date. -/
def sysPromptDate : String := "\n        - Current Date: "

/-- Template text between the weekday and the current time. -/
def sysPromptTime : String := "\n        - Current Time: "

/-- Template text of the instruction rules up to the second timezone occurrence. -/
def sysPromptRules : String :=
  "\n        \n        INSTRUCTIONS:\n        1. When the user asks for relative dates like \x27tomorrow\x27, \x27next Monday\x27, or \x27today\x27, you MUST calculate the exact ISO 8601 date based on the current date provided above.\n        2. Always include the \x27"

/-- Template text after the second timezone occurrence. -/
def sysPromptTail : String :=
  "\x27 in the \x27time_zone\x27 parameter when calling the \x27tool_create_calendar_event\x27 tool.\n        "

/-- The rendered f-string `system_prompt` (src/app.py:187-198). -/
def system_prompt_template (tz : String) (now : DateTimeRec) : String :=
  sysPromptPre ++ tz ++ sysPromptDate ++ fmtDate now ++ " (" ++ now.weekday ++ ")" ++
    sysPromptTime ++ fmtTime now ++ sysPromptRules ++ tz ++ sysPromptTail

/-
  The request handler up to the provider call (src/app.py:153-232), as a pure
  function of the injected clock, the raw history and the timezone string.
  `serverError` is the outer `except` (HTTP 500), `clientError` an early
  `return 400`, and `providerCall` records everything handed to the model:
  the prior context, the system instruction, and the chosen payload.
-/

/-- What `chat.send_message` receives: either the extracted user text value,
or the full part list of the popped final turn. -/
inductive Payload where
  | userText (v : JVal)
  | itemParts (ps : List (List (String × JVal)))

/-- Handler outcome up to (and including the decision of) the provider call. -/
inductive Outcome where
  | clientError (msg : String)
  | providerCall (prior : List STurn) (systemPrompt : String)
      (msgType : String) (payload : Payload)
  | serverError (msg : String)

/-- Holds exactly on a `providerCall` outcome (a provider round trip is paid). -/
def isProviderCall : Outcome → Bool
  | .providerCall .. => true
  | _ => false

/-- The turn-selection and prompt phase (src/app.py:165-231): guard against
an empty normalized history, pop the final turn, extract its user text, build
the prompt, and choose the payload to send. -/
def select_and_send (clock : Clock) (user_timezone : String)
    (clean : List STurn) : Outcome :=
  match clean.getLast? with
  | none => .clientError "No chat history received."
  | some last =>
    let prior := clean.dropLast
    let user_text := extract_user_text_from_item last
    let now := (resolve_now clock user_timezone).1
    let sys := system_prompt_template user_timezone now
    if jTruthy user_text then
      .providerCall prior sys "user_text" (.userText user_text)
    else if !last.parts.isEmpty then
      .providerCall prior sys "last_item_parts" (.itemParts last.parts)
    else
      .clientError "No user text or function response available."

/-- Model of `chat_handler` up to the provider call (src/app.py:153-232): sanitize,
then select and send; an exception raised by sanitization is caught by the
outer handler as a 500. -/
def chat_handler_pre (clock : Clock) (raw_history : List JVal)
    (user_timezone : String) : Outcome :=
  match sanitize_history_for_gemini raw_history with
  | .error e => .serverError e
  | .ok clean => select_and_send clock user_timezone clean

/-- Outcome of the response phase: a blocked 400, or the JSON success body
(`response_part` and `updated_history`). -/
inductive RespOutcome where
  | blocked (msg : String)
  | success (response_part : JVal) (updated_history : List JVal)

/-- The response phase of `chat_handler` (src/app.py:234-247): an absent or
empty candidates attribute is reported as blocked; otherwise the first part
is decoded safely and the provider chat history serialized. -/
def chat_handler_response (r : Reply) (chatHistory : List GTurn) : RespOutcome :=
  if !candidatesTruthy r.candidates then
    .blocked "The AI model blocked the response. Try rephrasing."
  else
    .success (safe_first_part_from_response r) (history_to_dict chatHistory)

/-
  Helper lemmas: a key-membership test on a dict succeeds exactly when the
  lookup does, which lets `sanitizePart` on a dict be characterized as a pure
  selection of the recognized keys.
-/

theorem lookup_isSome_eq_any (kvs : List (String × JVal)) (k : String) :
    (kvs.lookup k).isSome = kvs.any (fun p => p.1 == k) := by
  induction kvs with
  | nil => rfl
  | cons a tl ih =>
    obtain ⟨a1, a2⟩ := a
    by_cases h : k = a1
    · subst h
      simp [List.lookup]
    · have h1 : (k == a1) = false := by simp [h]
      have h2 : (a1 == k) = false := by
        simp only [beq_eq_false_iff_ne, ne_eq]
        intro e
        exact h e.symm
      simp [List.lookup, h1, h2, ih]

/-- Selection of one recognized key: the binding for `k`, re-labelled `outk`,
or nothing when the key is absent. -/
def pickFirst (kvs : List (String × JVal)) (k outk : String) :
    List (String × JVal) :=
  match kvs.lookup k with
  | some v => [(outk, v)]
  | none => []

/-- Selection for an if/elif casing pair: the camelCase key wins when present,
else the snake_case key is tried. -/
def pickEither (kvs : List (String × JVal)) (kCamel kSnake outk : String) :
    List (String × JVal) :=
  if (kvs.lookup kCamel).isSome then pickFirst kvs kCamel outk
  else pickFirst kvs kSnake outk

theorem sanitizePart_obj (kvs : List (String × JVal)) :
    sanitizePart (.obj kvs) =
      .ok (pickFirst kvs "text" "text" ++
           pickEither kvs "functionCall" "function_call" "function_call" ++
           pickEither kvs "functionResponse" "function_response" "function_response") := by
  simp only [sanitizePart, jContains, jGetItem, ← lookup_isSome_eq_any]
  cases h1 : kvs.lookup "text" <;>
    cases h2 : kvs.lookup "functionCall" <;>
      cases h3 : kvs.lookup "function_call" <;>
        cases h4 : kvs.lookup "functionResponse" <;>
          cases h5 : kvs.lookup "function_response" <;>
            simp [h1, h2, h3, h4, h5, pickFirst, pickEither, Bind.bind, Except.bind,
              Functor.map, Except.map, pure, Except.pure]

theorem bindOkElim {α β : Type} {x : Except String α} {f : α → Except String β}
    {b : β} (h : (x >>= f) = .ok b) : ∃ a, x = .ok a ∧ f a = .ok b := by
  cases x with
  | error e => simp [Bind.bind, Except.bind] at h
  | ok a => exact ⟨a, rfl, by simpa [Bind.bind, Except.bind] using h⟩

theorem sanitizeParts_cons_ok (p : JVal) (rest : List JVal)
    (np : List (String × JVal)) (out : List (List (String × JVal)))
    (h1 : sanitizePart p = .ok np) (h2 : sanitizeParts rest = .ok out) :
    sanitizeParts (p :: rest) = .ok (if np.isEmpty then out else np :: out) := by
  simp [sanitizeParts, h1, h2, Bind.bind, Except.bind, pure, Except.pure]

theorem sanitizeParts_obj_ok (ps : List JVal)
    (h : ∀ p ∈ ps, ∃ kvs, p = JVal.obj kvs) :
    ∃ out, sanitizeParts ps = .ok out := by
  induction ps with
  | nil => exact ⟨[], rfl⟩
  | cons p rest ih =>
    obtain ⟨kvs, hk⟩ := h p (by simp)
    obtain ⟨out, hout⟩ := ih (fun q hq => h q (by simp [hq]))
    subst hk
    exact ⟨_, sanitizeParts_cons_ok _ _ _ _ (sanitizePart_obj kvs) hout⟩

theorem sanitizeItem_obj (kvs : List (String × JVal)) (partList : List JVal)
    (nps : List (List (String × JVal)))
    (hiter : jIter ((kvs.lookup "parts").getD (.arr [])) = .ok partList)
    (hps : sanitizeParts partList = .ok nps) :
    sanitizeItem (.obj kvs) =
      .ok (if nps.isEmpty then none
           else some ⟨(kvs.lookup "role").getD (.str "user"), nps⟩) := by
  simp only [sanitizeItem, jGet, Bind.bind, Except.bind, hiter, hps]
  split <;> simp_all [pure, Except.pure]

theorem sanitizeItem_some_parts_ne_nil (item : JVal) (t : STurn)
    (h : sanitizeItem item = .ok (some t)) : t.parts ≠ [] := by
  simp only [sanitizeItem] at h
  obtain ⟨pv, _, h⟩ := bindOkElim h
  obtain ⟨pl, _, h⟩ := bindOkElim h
  obtain ⟨nps, _, h⟩ := bindOkElim h
  by_cases he : nps.isEmpty
  · simp [he, pure, Except.pure] at h
  · simp only [he, if_neg, Bool.false_eq_true, not_false_eq_true, if_false] at h
    obtain ⟨role, _, h⟩ := bindOkElim h
    have ht : (⟨role, nps⟩ : STurn) = t := by
      simpa [pure, Except.pure] using h
    subst ht
    simpa using fun hc => he (by simp [hc])

theorem sanitizeHistory_cons_some (item : JVal) (rest : List JVal) (t : STurn)
    (tail : List STurn) (h1 : sanitizeItem item = .ok (some t))
    (h2 : sanitize_history_for_gemini rest = .ok tail) :
    sanitize_history_for_gemini (item :: rest) = .ok (t :: tail) := by
  simp [sanitize_history_for_gemini, h1, h2, Bind.bind, Except.bind, pure, Except.pure]

theorem sanitizeHistory_cons_none (item : JVal) (rest : List JVal)
    (h1 : sanitizeItem item = .ok none) :
    sanitize_history_for_gemini (item :: rest) = sanitize_history_for_gemini rest := by
  cases h2 : sanitize_history_for_gemini rest with
  | error e => simp [sanitize_history_for_gemini, h1, h2, Bind.bind, Except.bind]
  | ok tail =>
    simp [sanitize_history_for_gemini, h1, h2, Bind.bind, Except.bind, pure, Except.pure]

theorem sanitize_turn_parts_ne_nil (raw : List JVal) (clean : List STurn)
    (h : sanitize_history_for_gemini raw = .ok clean) :
    ∀ t ∈ clean, t.parts ≠ [] := by
  induction raw generalizing clean with
  | nil =>
    simp only [sanitize_history_for_gemini] at h
    cases h
    simp
  | cons item rest ih =>
    simp only [sanitize_history_for_gemini] at h
    obtain ⟨r, hr, h2⟩ := bindOkElim h
    obtain ⟨tail, htail, h3⟩ := bindOkElim h2
    cases r with
    | none =>
      have he : tail = clean := by simpa [pure, Except.pure] using h3
      subst he
      exact ih _ htail
    | some t =>
      have he : t :: tail = clean := by simpa [pure, Except.pure] using h3
      subst he
      intro u hu
      rcases List.mem_cons.mp hu with h' | h'
      · subst h'
        exact sanitizeItem_some_parts_ne_nil item u hr
      · exact ih _ htail u h'

theorem sanitizeParts_all_empty (ps : List JVal)
    (h : ∀ p ∈ ps, sanitizePart p = .ok []) : sanitizeParts ps = .ok [] := by
  induction ps with
  | nil => rfl
  | cons p rest ih =>
    simpa using
      sanitizeParts_cons_ok p rest [] [] (h p (by simp))
        (ih fun q hq => h q (by simp [hq]))

theorem sanitizeItem_role_eq (kvs : List (String × JVal)) (t : STurn)
    (h : sanitizeItem (.obj kvs) = .ok (some t)) :
    t.role = (kvs.lookup "role").getD (.str "user") := by
  simp only [sanitizeItem] at h
  obtain ⟨pv, hpv, h⟩ := bindOkElim h
  obtain ⟨pl, hpl, h⟩ := bindOkElim h
  obtain ⟨nps, hnps, h⟩ := bindOkElim h
  by_cases he : nps.isEmpty
  · simp [he, pure, Except.pure] at h
  · simp only [he, Bool.false_eq_true, if_false] at h
    obtain ⟨role, hrole, h⟩ := bindOkElim h
    have hr : role = (kvs.lookup "role").getD (.str "user") := by
      have := hrole
      simp only [jGet] at this
      exact (Except.ok.inj this).symm
    have ht : (⟨role, nps⟩ : STurn) = t := by simpa [pure, Except.pure] using h
    rw [← ht]
    exact hr

/-- A fixed injected clock for concrete runs: server local time is 2024-06-10
10:00:00 (a Monday) and no timezone identifier resolves. -/
def testClock : Clock := ⟨⟨2024, 6, 10, 10, 0, 0, "Monday"⟩, fun _ => none⟩

/-- Holds exactly on a `clientError` outcome. -/
def isClientErrorOutcome : Outcome → Bool
  | .clientError _ => true
  | _ => false

/-- Holds exactly when the outcome sends the extracted user text. -/
def isUserTextSend : Outcome → Bool
  | .providerCall _ _ _ (.userText _) => true
  | _ => false

/-- C1 counterexample: normalizing a part record holding both a `text` key
and a `functionCall` key keeps BOTH payloads — the normalized part still
carries a `function_call` binding, so it is not a Text-only part. -/
theorem C1_counterexample :
    sanitize_history_for_gemini
      [.obj [("parts", .arr [.obj [("text", .str "hi"),
        ("functionCall", .obj [("name", .str "tool_search_gmail"),
          ("args", .obj [])])]])]] =
      .ok [⟨.str "user", [[("text", .str "hi"),
        ("function_call", .obj [("name", .str "tool_search_gmail"),
          ("args", .obj [])])]]⟩] ∧
    (([("text", JVal.str "hi"),
       ("function_call", JVal.obj [("name", .str "tool_search_gmail"),
         ("args", .obj [])])].lookup "function_call").isSome = true) :=
  ⟨rfl, rfl⟩

/-- C1 (amended): normalizing a part record that contains both a `text` key
and the camelCase function-call key (and no function-response key) yields a
part carrying BOTH the Text and the FunctionCall payloads; the if/elif
priority exists only between the two casings of one payload kind, not across
kinds. -/
theorem C1_both_payloads_kept (kvs : List (String × JVal)) (tv fv : JVal)
    (ht : kvs.lookup "text" = some tv)
    (hfc : kvs.lookup "functionCall" = some fv)
    (hr1 : kvs.lookup "functionResponse" = none)
    (hr2 : kvs.lookup "function_response" = none) :
    sanitizePart (.obj kvs) = .ok [("text", tv), ("function_call", fv)] := by
  rw [sanitizePart_obj]
  simp [pickFirst, pickEither, ht, hfc, hr1, hr2]

theorem C1_witness :
    sanitizePart (.obj [("text", .str "hi"),
      ("functionCall", .str "F")]) =
      .ok [("text", .str "hi"), ("function_call", .str "F")] :=
  C1_both_payloads_kept _ _ _ rfl rfl rfl rfl

/-- Holds exactly on an object record. -/
def isObjB : JVal → Bool
  | .obj _ => true
  | _ => false

/-- A turn record on which normalization cannot raise: an object whose
`parts` value, when present, is an array of object records. -/
def goodTurnB (t : JVal) : Bool :=
  match t with
  | .obj kvs =>
    match kvs.lookup "parts" with
    | none => true
    | some (.arr ps) => ps.all isObjB
    | some _ => false
  | _ => false

/-- C5 counterexample: normalization raises on a part record that is the
string "text" — the Python substring test of the key in the part succeeds
and the following string subscript is a TypeError.  The claimed totality over
every turn/part record shape is false. -/
theorem C5_counterexample :
    sanitize_history_for_gemini [.obj [("parts", .arr [.str "text"])]] =
      .error "TypeError: string indices must be integers" := rfl

/-- C5 (amended): normalization is total — returns a result, raising no
error — over every transcript whose turn records are objects and whose
`parts` entries, when present, are arrays of object part records; a non-object
part record (for example a bare string containing "text") can raise. -/
theorem C5_total_on_object_records (history : List JVal)
    (h : ∀ t ∈ history, goodTurnB t = true) :
    ∃ out, sanitize_history_for_gemini history = .ok out := by
  induction history with
  | nil => exact ⟨[], rfl⟩
  | cons item rest ih =>
    obtain ⟨out, hout⟩ := ih fun q hq => h q (by simp [hq])
    have hitem := h item (by simp)
    cases item with
    | obj kvs =>
      simp only [goodTurnB] at hitem
      cases hkv : kvs.lookup "parts" with
      | none =>
        have hit : sanitizeItem (.obj kvs) = .ok none := by
          have := sanitizeItem_obj kvs [] [] (by rw [hkv]; rfl) rfl
          simpa using this
        exact ⟨out, by rw [sanitizeHistory_cons_none _ _ hit]; exact hout⟩
      | some pv =>
        rw [hkv] at hitem
        cases pv with
        | arr ps =>
          have hobj : ∀ p ∈ ps, ∃ pkvs, p = JVal.obj pkvs := by
            intro p hp
            have := List.all_eq_true.mp hitem p hp
            cases p <;> simp [isObjB] at this ⊢
          obtain ⟨nps, hnps⟩ := sanitizeParts_obj_ok ps hobj
          have hit := sanitizeItem_obj kvs ps nps (by rw [hkv]; rfl) hnps
          by_cases he : nps.isEmpty
          · rw [he] at hit
            simp only [if_true] at hit
            exact ⟨out, by rw [sanitizeHistory_cons_none _ _ hit]; exact hout⟩
          · rw [Bool.not_eq_true] at he
            rw [he] at hit
            simp only [Bool.false_eq_true, if_false] at hit
            exact ⟨_, sanitizeHistory_cons_some _ _ _ _ hit hout⟩
        | null => simp at hitem
        | bool b => simp at hitem
        | num n => simp at hitem
        | str s => simp at hitem
        | obj o => simp at hitem
    | null => simp [goodTurnB] at hitem
    | bool b => simp [goodTurnB] at hitem
    | num n => simp [goodTurnB] at hitem
    | str s => simp [goodTurnB] at hitem
    | arr xs => simp [goodTurnB] at hitem

theorem C5_witness :
    (∀ t ∈ [JVal.obj [("role", JVal.str "user"),
        ("parts", JVal.arr [JVal.obj [("text", JVal.str "hi")],
          JVal.obj [("weird", JVal.null)]])]], goodTurnB t = true) ∧
    ∃ out, sanitize_history_for_gemini
      [JVal.obj [("role", JVal.str "user"),
        ("parts", JVal.arr [JVal.obj [("text", JVal.str "hi")],
          JVal.obj [("weird", JVal.null)]])]] = .ok out :=
  ⟨by decide, C5_total_on_object_records _ (by decide)⟩

/-- C6: per input turn record — (i) a part record with none of the recognized
keys normalizes to the empty record, so it is silently discarded; (ii) a turn
with no `role` key gets role `"user"`; (iii) a turn whose parts all normalize
to empty is dropped (`none`); (iv) a dropped turn contributes nothing to the
normalized transcript, so it never reaches the model. -/
theorem C6_discard_default_drop :
    (∀ kvs : List (String × JVal),
       kvs.lookup "text" = none → kvs.lookup "functionCall" = none →
       kvs.lookup "function_call" = none → kvs.lookup "functionResponse" = none →
       kvs.lookup "function_response" = none →
       sanitizePart (.obj kvs) = .ok []) ∧
    (∀ (kvs : List (String × JVal)) (t : STurn),
       kvs.lookup "role" = none →
       sanitizeItem (.obj kvs) = .ok (some t) → t.role = .str "user") ∧
    (∀ (kvs : List (String × JVal)) (ps : List JVal),
       kvs.lookup "parts" = some (.arr ps) →
       (∀ p ∈ ps, sanitizePart p = .ok []) →
       sanitizeItem (.obj kvs) = .ok none) ∧
    (∀ (item : JVal) (rest : List JVal),
       sanitizeItem item = .ok none →
       sanitize_history_for_gemini (item :: rest) =
         sanitize_history_for_gemini rest) := by
  refine ⟨?_, ?_, ?_, ?_⟩
  · intro kvs h1 h2 h3 h4 h5
    rw [sanitizePart_obj]
    simp [pickFirst, pickEither, h1, h2, h3, h4, h5]
  · intro kvs t hrole h
    rw [sanitizeItem_role_eq kvs t h, hrole]
    rfl
  · intro kvs ps hps hall
    have := sanitizeItem_obj kvs ps [] (by rw [hps]; rfl)
      (sanitizeParts_all_empty ps hall)
    simpa using this
  · intro item rest h
    exact sanitizeHistory_cons_none item rest h

theorem C6_witness :
    sanitizePart (.obj [("metadata", .null)]) = .ok [] ∧
    (∀ t : STurn,
       sanitizeItem (.obj [("parts",
         .arr [.obj [("text", .str "x")]])]) = .ok (some t) → t.role = .str "user") ∧
    sanitizeItem (.obj [("role", .str "user"),
      ("parts", .arr [.obj [("metadata", .null)]])]) = .ok none ∧
    sanitize_history_for_gemini
      [.obj [("role", .str "user"), ("parts", .arr [.obj [("metadata", .null)]])],
       .obj [("parts", .arr [.obj [("text", .str "hi")]])]] =
      sanitize_history_for_gemini
        [.obj [("parts", .arr [.obj [("text", .str "hi")]])]] := by
  refine ⟨C6_discard_default_drop.1 _ rfl rfl rfl rfl rfl,
    fun t ht => C6_discard_default_drop.2.1
      [("parts", .arr [.obj [("text", .str "x")]])] t rfl ht,
    C6_discard_default_drop.2.2.1 _ [.obj [("metadata", .null)]] rfl ?_,
    C6_discard_default_drop.2.2.2 _ _
      (C6_discard_default_drop.2.2.1 _ [.obj [("metadata", .null)]] rfl ?_)⟩ <;>
  · intro p hp
    have he : p = JVal.obj [("metadata", JVal.null)] := by simpa using hp
    rw [he]
    exact C6_discard_default_drop.1 _ rfl rfl rfl rfl rfl

/-- C9: whenever the normalized transcript is empty, the handler returns the
empty-history client error before any provider call is made — the outcome is
not a provider call, so no provider cost is incurred. -/
theorem C9_empty_history (clock : Clock) (raw : List JVal) (tz : String)
    (h : sanitize_history_for_gemini raw = .ok []) :
    chat_handler_pre clock raw tz = .clientError "No chat history received." ∧
    isProviderCall (chat_handler_pre clock raw tz) = false := by
  have e1 : chat_handler_pre clock raw tz = select_and_send clock tz [] := by
    unfold chat_handler_pre
    rw [h]
  constructor
  · rw [e1]
    rfl
  · rw [e1]
    rfl

theorem C9_witness :
    chat_handler_pre testClock [.obj [("parts", .arr [])]] "UTC" =
      .clientError "No chat history received." ∧
    isProviderCall
      (chat_handler_pre testClock [.obj [("parts", .arr [])]] "UTC") = false :=
  C9_empty_history testClock _ "UTC" rfl

/-- C2 counterexample: a normalized transcript whose (single) final turn has a
FunctionCall first part is NOT rejected — the handler forwards the part list
of the turn to the model as the current message, so no client error is returned. -/
theorem C2_counterexample :
    chat_handler_pre testClock
      [.obj [("role", .str "model"),
        ("parts", .arr [.obj [("functionCall",
          .obj [("name", .str "tool_search_gmail"),
            ("args", .obj [("query", .str "invoice")])])]])]] "UTC" =
      .providerCall [] (system_prompt_template "UTC" testClock.localNow)
        "last_item_parts"
        (.itemParts [[("function_call",
          .obj [("name", .str "tool_search_gmail"),
            ("args", .obj [("query", .str "invoice")])])]]) ∧
    isClientErrorOutcome (chat_handler_pre testClock
      [.obj [("role", .str "model"),
        ("parts", .arr [.obj [("functionCall",
          .obj [("name", .str "tool_search_gmail"),
            ("args", .obj [("query", .str "invoice")])])]])]] "UTC") = false :=
  ⟨rfl, rfl⟩

/-- C2 (amended): after removing the final turn of a non-empty normalized
transcript, any final turn whose first Part carries no `text` binding — a
FunctionResponse first part, but equally a FunctionCall first part — is
classified as the tool-result send with the full remaining part list of that
turn as payload; the unrecognized-shape client error is returned only when the popped
turn has an empty part list, which normalization never produces. -/
theorem C2_final_turn_forwarding :
    (∀ (clock : Clock) (tz : String) (prior : List STurn) (last : STurn)
       (firstPart : List (String × JVal)) (restP : List (List (String × JVal))),
       last.parts = firstPart :: restP →
       firstPart.lookup "text" = none →
       select_and_send clock tz (prior ++ [last]) =
         .providerCall prior (system_prompt_template tz (resolve_now clock tz).1)
           "last_item_parts" (.itemParts last.parts)) ∧
    (∀ (clock : Clock) (tz : String) (prior : List STurn) (last : STurn),
       last.parts = [] →
       select_and_send clock tz (prior ++ [last]) =
         .clientError "No user text or function response available.") ∧
    (∀ (raw : List JVal) (clean : List STurn),
       sanitize_history_for_gemini raw = .ok clean →
       ∀ t ∈ clean, t.parts ≠ []) := by
  have hj : jTruthy (.str "") = false := rfl
  refine ⟨?_, ?_, fun raw clean h => sanitize_turn_parts_ne_nil raw clean h⟩
  · intro clock tz prior last firstPart restP hp ht
    have hext : extract_user_text_from_item last = .str "" := by
      simp [extract_user_text_from_item, hp, ht]
    simp [select_and_send, List.getLast?_concat, List.dropLast_concat,
      hext, hj, hp]
  · intro clock tz prior last hp
    have hext : extract_user_text_from_item last = .str "" := by
      simp [extract_user_text_from_item, hp]
    simp [select_and_send, List.getLast?_concat, List.dropLast_concat,
      hext, hj, hp]

theorem C2_witness :
    select_and_send testClock "UTC"
      ([] ++ [⟨.str "user", [[("function_response",
        .obj [("name", .str "tool_search_gmail"), ("response", .obj [])])]]⟩]) =
      .providerCall [] (system_prompt_template "UTC" (resolve_now testClock "UTC").1)
        "last_item_parts"
        (.itemParts [[("function_response",
          .obj [("name", .str "tool_search_gmail"), ("response", .obj [])])]]) :=
  C2_final_turn_forwarding.1 testClock "UTC" []
    (⟨.str "user", [[("function_response",
      .obj [("name", .str "tool_search_gmail"), ("response", .obj [])])]]⟩ : STurn)
    [("function_response",
      .obj [("name", .str "tool_search_gmail"), ("response", .obj [])])]
    [] rfl rfl

/-- C4 counterexample: a normalized transcript of length one whose final
final turn has first Part `Text("")` is NOT classified as a user-text send — the
empty string is falsy, so the handler forwards the raw part list instead. -/
theorem C4_counterexample :
    select_and_send testClock "UTC" [⟨.str "user", [[("text", .str "")]]⟩] =
      .providerCall [] (system_prompt_template "UTC" testClock.localNow)
        "last_item_parts" (.itemParts [[("text", .str "")]]) ∧
    isUserTextSend (select_and_send testClock "UTC"
      [⟨.str "user", [[("text", .str "")]]⟩]) = false :=
  ⟨rfl, rfl⟩

/-- C4 (amended): for every non-empty normalized transcript whose final
final turn has a first Part of Text with a NONEMPTY string, the selector yields the
user-text send with that string as payload and a prior context exactly one
turn shorter; in particular a transcript of length 1 so ending yields an
empty prior context and the extracted text, not an error. -/
theorem C4_user_text_selection (clock : Clock) (tz : String)
    (prior : List STurn) (last : STurn) (firstPart : List (String × JVal))
    (restP : List (List (String × JVal))) (s : String)
    (hp : last.parts = firstPart :: restP)
    (ht : firstPart.lookup "text" = some (.str s))
    (hs : s.isEmpty = false) :
    select_and_send clock tz (prior ++ [last]) =
      .providerCall prior (system_prompt_template tz (resolve_now clock tz).1)
        "user_text" (.userText (.str s)) ∧
    (prior ++ [last]).length = prior.length + 1 := by
  constructor
  · have hext : extract_user_text_from_item last = .str s := by
      simp [extract_user_text_from_item, hp, ht]
    simp [select_and_send, List.getLast?_concat, List.dropLast_concat,
      hext, jTruthy, hs]
  · simp

theorem C4_witness :
    select_and_send testClock "UTC"
      ([] ++ [⟨.str "user", [[("text", .str "book a meeting")]]⟩]) =
      .providerCall [] (system_prompt_template "UTC" (resolve_now testClock "UTC").1)
        "user_text" (.userText (.str "book a meeting")) ∧
    (([] : List STurn) ++
      [(⟨.str "user", [[("text", .str "book a meeting")]]⟩ : STurn)]).length =
      ([] : List STurn).length + 1 :=
  C4_user_text_selection testClock "UTC" []
    (⟨.str "user", [[("text", .str "book a meeting")]]⟩ : STurn)
    [("text", .str "book a meeting")] [] "book a meeting" rfl rfl rfl

theorem part_to_dict_is_obj (p : GPart) : ∃ kvs, part_to_dict p = .obj kvs := by
  unfold part_to_dict
  by_cases h : textTruthy p.text
  · exact ⟨_, by rw [if_pos h]⟩
  · rw [if_neg h]
    cases hfc : p.function_call with
    | none => exact ⟨[], rfl⟩
    | some fc =>
      cases ha : fc.argsConv with
      | ok args =>
        refine ⟨[("functionCall", .obj [("name", .str fc.name), ("args", .obj args)])], ?_⟩
        simp [ha]
      | error e =>
        refine ⟨[("error", .str ("part_to_dict_failed: " ++ e))], ?_⟩
        simp [ha]

/-- C3: the Response Decoder is total — it always yields a transport-neutral
record and never raises; an absent-or-empty candidates attribute is surfaced
as the blocked client error, whose message embeds the phrase
"model blocked the response."; a first candidate with no content, or with an
empty part list, falls back to the top-level text of the content, else empty text;
and an exception raised while decoding the first part is caught and turned
into an error record instead of propagating. -/
theorem C3_response_decoder_safe (r : Reply) (hist : List GTurn) :
    (∃ kvs, safe_first_part_from_response r = .obj kvs) ∧
    (candidatesTruthy r.candidates = false →
       chat_handler_response r hist =
         .blocked ("The AI " ++ "model blocked the response." ++ " Try rephrasing.")) ∧
    (∀ c rest, r.candidates = some (c :: rest) → c.content = none →
       safe_first_part_from_response r = .obj [("text", .str "")]) ∧
    (∀ c rest content, r.candidates = some (c :: rest) →
       c.content = some content → content.parts.getD [] = [] →
       safe_first_part_from_response r =
         .obj [("text", .str (content.text.getD ""))]) ∧
    (∀ c rest content p ps fc e, r.candidates = some (c :: rest) →
       c.content = some content → content.parts = some (p :: ps) →
       textTruthy p.text = false → p.function_call = some fc →
       fc.argsConv = .error e →
       safe_first_part_from_response r =
         .obj [("error", .str ("part_to_dict_failed: " ++ e))]) := by
  refine ⟨?_, ?_, ?_, ?_, ?_⟩
  · cases hc : r.candidates with
    | none =>
      refine ⟨[("text", .str "")], ?_⟩
      simp [safe_first_part_from_response, hc]
    | some cands =>
      cases cands with
      | nil =>
        refine ⟨[("text", .str "")], ?_⟩
        simp [safe_first_part_from_response, hc]
      | cons c rest =>
        cases hct : c.content with
        | none =>
          refine ⟨[("text", .str "")], ?_⟩
          simp [safe_first_part_from_response, hc, hct]
        | some content =>
          cases hps : content.parts.getD [] with
          | nil =>
            refine ⟨[("text", .str (content.text.getD ""))], ?_⟩
            simp [safe_first_part_from_response, hc, hct, hps]
          | cons p ps =>
            obtain ⟨kvs, hk⟩ := part_to_dict_is_obj p
            refine ⟨kvs, ?_⟩
            simp [safe_first_part_from_response, hc, hct, hps, hk]
  · intro h
    simp [chat_handler_response, h]
  · intro c rest hc hct
    simp [safe_first_part_from_response, hc, hct]
  · intro c rest content hc hct hps
    simp [safe_first_part_from_response, hc, hct, hps]
  · intro c rest content p ps fc e hc hct hps hT hfc he
    have hg : content.parts.getD [] = p :: ps := by rw [hps]; rfl
    simp [safe_first_part_from_response, hc, hct, hg, part_to_dict, hT, hfc, he]

theorem C3_witness :
    chat_handler_response ⟨none⟩ [] =
      .blocked ("The AI " ++ "model blocked the response." ++ " Try rephrasing.") :=
  (C3_response_decoder_safe ⟨none⟩ []).2.1 rfl

/-- C7: the Prompt Builder never fails — an unresolvable timezone identifier
falls back silently to the local time of the server — and the rendered system
instruction is a well-formed string embedding the zone identifier exactly as
given together with the computed date, weekday name, and time. -/
theorem C7_prompt_builder (clock : Clock) (tz : String) :
    (clock.tzNow tz = none → resolve_now clock tz = (clock.localNow, false)) ∧
    (∃ pre mid1 mid2 post : String,
       system_prompt_template tz (resolve_now clock tz).1 =
         pre ++ tz ++ mid1 ++ fmtDate (resolve_now clock tz).1 ++ " (" ++
           (resolve_now clock tz).1.weekday ++ ")" ++ mid2 ++
           fmtTime (resolve_now clock tz).1 ++ post) := by
  constructor
  · intro h
    simp [resolve_now, h]
  · refine ⟨sysPromptPre, sysPromptDate, sysPromptTime,
      sysPromptRules ++ tz ++ sysPromptTail, ?_⟩
    simp only [system_prompt_template, String.append_assoc]

theorem C7_witness :
    testClock.tzNow "Nowhere/Place" = none ∧
    resolve_now testClock "Nowhere/Place" = (testClock.localNow, false) ∧
    ∃ pre mid1 mid2 post : String,
      system_prompt_template "Nowhere/Place"
          (resolve_now testClock "Nowhere/Place").1 =
        pre ++ "Nowhere/Place" ++ mid1 ++
          fmtDate (resolve_now testClock "Nowhere/Place").1 ++ " (" ++
          (resolve_now testClock "Nowhere/Place").1.weekday ++ ")" ++ mid2 ++
          fmtTime (resolve_now testClock "Nowhere/Place").1 ++ post :=
  ⟨rfl, (C7_prompt_builder testClock "Nowhere/Place").1 rfl,
    (C7_prompt_builder testClock "Nowhere/Place").2⟩

/-- C8: round trip — serializing a decoded FunctionCall reply part through
the History Serializer step `part_to_dict` and re-normalizing the result with
the Transcript Normalizer reproduces an equivalent FunctionCall part, name
and args preserved (under the snake_case key of the normalized shape). -/
theorem C8_function_call_roundtrip (p : GPart) (fc : FunctionCallObj)
    (args : List (String × JVal)) (hn : textTruthy p.text = false)
    (hf : p.function_call = some fc) (ha : fc.argsConv = .ok args) :
    part_to_dict p =
      .obj [("functionCall",
        .obj [("name", .str fc.name), ("args", .obj args)])] ∧
    sanitize_history_for_gemini
      [.obj [("role", .str "model"), ("parts", .arr [part_to_dict p])]] =
      .ok [⟨.str "model",
        [[("function_call",
          .obj [("name", .str fc.name), ("args", .obj args)])]]⟩] := by
  have hd : part_to_dict p =
      .obj [("functionCall",
        .obj [("name", .str fc.name), ("args", .obj args)])] := by
    simp [part_to_dict, hn, hf, ha]
  refine ⟨hd, ?_⟩
  rw [hd]
  rfl

theorem C8_witness :
    part_to_dict ⟨none, some ⟨"tool_search_gmail",
        .ok [("query", .str "invoice")]⟩⟩ =
      .obj [("functionCall", .obj [("name", .str "tool_search_gmail"),
        ("args", .obj [("query", .str "invoice")])])] ∧
    sanitize_history_for_gemini
      [.obj [("role", .str "model"), ("parts", .arr [part_to_dict
        ⟨none, some ⟨"tool_search_gmail", .ok [("query", .str "invoice")]⟩⟩])]] =
      .ok [⟨.str "model",
        [[("function_call", .obj [("name", .str "tool_search_gmail"),
          ("args", .obj [("query", .str "invoice")])])]]⟩] :=
  C8_function_call_roundtrip
    ⟨none, some ⟨"tool_search_gmail", .ok [("query", .str "invoice")]⟩⟩
    ⟨"tool_search_gmail", .ok [("query", .str "invoice")]⟩
    [("query", .str "invoice")] rfl rfl rfl

/-- C10: a reply part whose text attribute is absent or empty and which
carries no function-call payload serializes to the empty record, both as the
`response_part` (through the safe decoder) and inside `updated_history`
(through the serializer); the normalizer then drops such empty part records,
and a resent turn all of whose parts are empty records is dropped entirely. -/
theorem C10_empty_record_lifecycle :
    (∀ p : GPart, textTruthy p.text = false → p.function_call = none →
       part_to_dict p = .obj []) ∧
    (∀ (r : Reply) (c : Candidate) (rest : List Candidate) (content : GContent)
       (p : GPart) (ps : List GPart),
       r.candidates = some (c :: rest) → c.content = some content →
       content.parts = some (p :: ps) → textTruthy p.text = false →
       p.function_call = none →
       safe_first_part_from_response r = .obj []) ∧
    (∀ (role : Option String) (p : GPart),
       textTruthy p.text = false → p.function_call = none →
       history_to_dict [⟨role, some [p]⟩] =
         [.obj [("role", .str (role.getD "model")), ("parts", .arr [.obj []])]]) ∧
    (sanitizePart (.obj []) = .ok []) ∧
    (∀ (rv : JVal) (n : Nat),
       sanitizeItem (.obj [("role", rv),
         ("parts", .arr (List.replicate n (.obj [])))]) = .ok none) := by
  have hempty : ∀ p : GPart, textTruthy p.text = false → p.function_call = none →
      part_to_dict p = .obj [] := by
    intro p hn hf
    simp [part_to_dict, hn, hf]
  refine ⟨hempty, ?_, ?_, rfl, ?_⟩
  · intro r c rest content p ps hc hct hps hn hf
    have hg : content.parts.getD [] = p :: ps := by rw [hps]; rfl
    simp [safe_first_part_from_response, hc, hct, hg, hempty p hn hf]
  · intro role p hn hf
    simp [history_to_dict, hempty p hn hf]
  · intro rv n
    have hps : sanitizeParts (List.replicate n (.obj [])) = .ok [] := by
      refine sanitizeParts_all_empty _ ?_
      intro p hp
      rw [List.eq_of_mem_replicate hp]
      rfl
    have := sanitizeItem_obj [("role", rv), ("parts",
      .arr (List.replicate n (.obj [])))] (List.replicate n (.obj [])) [] rfl hps
    simpa using this

theorem C10_witness :
    part_to_dict ⟨some "", none⟩ = .obj [] ∧
    safe_first_part_from_response
      ⟨some [⟨some ⟨some [⟨some "", none⟩], some "ignored"⟩⟩]⟩ = .obj [] ∧
    history_to_dict [⟨some "model", some [⟨none, none⟩]⟩] =
      [.obj [("role", .str "model"), ("parts", .arr [.obj []])]] ∧
    sanitizeItem (.obj [("role", .str "model"),
      ("parts", .arr (List.replicate 2 (.obj [])))]) = .ok none :=
  ⟨C10_empty_record_lifecycle.1 ⟨some "", none⟩ rfl rfl,
   C10_empty_record_lifecycle.2.1 _ _ [] _ ⟨some "", none⟩ [] rfl rfl rfl rfl rfl,
   C10_empty_record_lifecycle.2.2.1 (some "model") ⟨none, none⟩ rfl rfl,
   C10_empty_record_lifecycle.2.2.2.2 (.str "model") 2⟩
